import Mathlib

/-!
# Verification of the nasaapp bee-map backend

Shallow embedding of the two variants of the `/api/bee-map` endpoint
(`src/server.js`, the basic batched variant, and `src/unnamed/part_000`,
the extended sequential variant) in Lean 4.

Conventions of the embedding:
* JavaScript numbers are modelled as rationals `ℚ` (the scoring factors,
  coordinates and temperatures are all small decimal literals, so every
  value the pipeline manipulates is an exact rational).
* A possibly-absent value (`null`/`undefined`) is an `Option`.
* The calendar month that the source reads internally via
  `new Date().getMonth()` is made an explicit parameter `currentMonth : ℕ`
  (0 = January .. 11 = December), so the hidden clock input is visible in
  every statement.
* A network call is modelled by an oracle function supplied as a parameter;
  `none` stands for any failure of the call (timeout, HTTP 429, malformed
  response, ...).
-/

/-- A geographic coordinate, as the `{ lat, lon }` grid-point objects of the
source. -/
structure Coord where
  lat : ℚ
  lon : ℚ
deriving DecidableEq, Repr

/-- `const vegetationScore = hasVegetation ? 1.0 : 0.05;` -/
def vegetationScore (hasVegetation : Bool) : ℚ :=
  if hasVegetation then 1 else 1/20

/-- `let tempScore = 0; if (temperature >= 20 && temperature <= 32) tempScore = 1.0;
else if (temperature > 15 && temperature < 38) tempScore = 0.5;` -/
def tempScore (temperature : ℚ) : ℚ :=
  if 20 ≤ temperature ∧ temperature ≤ 32 then 1
  else if 15 < temperature ∧ temperature < 38 then 1/2
  else 0

/-- The seasonality branch of `calcularPontuacaoAbelha`:
`const isNorthernHemisphere = latitude > 0;` followed by the two
month tables (Northern: 2–7 → 1.0, 8–9 → 0.5, else 0.1;
Southern: ≥8 or ≤1 → 1.0, 2–3 → 0.5, else 0.1). -/
def seasonalityScore (currentMonth : ℕ) (latitude : ℚ) : ℚ :=
  if latitude > 0 then
    if 2 ≤ currentMonth ∧ currentMonth ≤ 7 then 1
    else if currentMonth = 8 ∨ currentMonth = 9 then 1/2
    else 1/10
  else
    if 8 ≤ currentMonth ∨ currentMonth ≤ 1 then 1
    else if currentMonth = 2 ∨ currentMonth = 3 then 1/2
    else 1/10

/-- `function calcularPontuacaoAbelha(temperature, hasVegetation, latitude)`.
`temperature == null` (null or undefined) is `none`.  The source reads
`currentMonth` internally from the system clock (`new Date().getMonth()`);
here that hidden input is an explicit parameter. -/
def calcularPontuacaoAbelha (temperature : Option ℚ) (hasVegetation : Bool)
    (latitude : ℚ) (currentMonth : ℕ) : ℚ :=
  match temperature with
  | none => 0
  | some t =>
      vegetationScore hasVegetation * tempScore t *
        seasonalityScore currentMonth latitude

/-- `const gridSize = 15;` — the resolution constant of the source. -/
def sourceGridSize : ℕ := 15

/-- `const buffer = 0.5;` -/
def sourceBuffer : ℚ := 1/2

/-- The grid loop of the handler (identical in both variants), generalised
over the resolution (the source fixes `gridSize = 15`):

```
for (let i = 0; i < gridSize; i++)
  for (let j = 0; j < gridSize; j++) {
    const pointLat = south + (i * (north - south)) / (gridSize - 1);
    const pointLon = west + (j * (east - west)) / (gridSize - 1);
    gridPoints.push({ lat: pointLat, lon: pointLon });
  }
```

with `south/west/north/east = lat/lon ∓/± buffer`.  (For `gridSize = 1` the
JavaScript division is `0/0 = NaN`; in `ℚ` division by zero yields `0`.
All claims about grid contents assume `gridSize ≥ 2`, where the two
semantics agree exactly.)

`gridPointAt` is the loop body computing the point of row `i`, column `j`;
`generateGrid` is the double loop itself. -/
def gridPointAt (lat lon buffer : ℚ) (gridSize i j : ℕ) : Coord :=
  { lat := (lat - buffer) +
      ((i : ℚ) * ((lat + buffer) - (lat - buffer))) / ((gridSize : ℚ) - 1)
    lon := (lon - buffer) +
      ((j : ℚ) * ((lon + buffer) - (lon - buffer))) / ((gridSize : ℚ) - 1) }

def generateGrid (lat lon buffer : ℚ) (gridSize : ℕ) : List Coord :=
  (List.range gridSize).flatMap (fun i =>
    (List.range gridSize).map (fun j => gridPointAt lat lon buffer gridSize i j))

/-- The sequential rate-limited temperature loop of the extended variant:
one HTTP call per grid point (modelled by the oracle `fetch`; `none` is any
failed call — timeout, HTTP 429, malformed body, ...), pushing the fetched
`temperature_2m` on success and the fallback `25` on failure:

```
try { const response = await axios.get(weatherUrl, { timeout: 15000 });
      temperatures.push(response.data.current.temperature_2m); }
catch (err) { temperatures.push(25); }
```

The 1500 ms inter-request pause only sequences the calls in time and does
not affect the produced list. -/
def fetchTemperatures (fetch : Coord → Option ℚ) (points : List Coord) : List ℚ :=
  points.map (fun point =>
    match fetch point with
    | some t => t
    | none => 25)

/-- The edge list walked by the `point-in-polygon` loop: vertex `i` paired
with vertex `j`, where `j` starts at the last index and trails `i`
(`for (i = 0, j = vs.length - 1; i < vs.length; j = i++)`). -/
def polygonEdges (vs : List (ℚ × ℚ)) : List ((ℚ × ℚ) × (ℚ × ℚ)) :=
  match vs.getLast? with
  | none => []
  | some lastV => vs.zip (lastV :: vs.dropLast)

/-- One iteration of the ray-casting loop body:
`((yi > y) != (yj > y)) && (x < (xj - xi) * (y - yi) / (yj - yi) + xi)`
toggles `inside`.  The boolean `!=` of the two comparisons is written as the
exclusive-or disjunction; when the two comparisons agree the condition is
false, so the division (whose denominator `yj − yi` would then be the only
candidate for `0`) is never material, exactly as under JavaScript's
short-circuit `&&`. -/
def raycastStep (x y : ℚ) (inside : Bool) (e : (ℚ × ℚ) × (ℚ × ℚ)) : Bool :=
  if ((e.1.2 > y ∧ ¬(e.2.2 > y)) ∨ (¬(e.1.2 > y) ∧ e.2.2 > y)) ∧
      x < (e.2.1 - e.1.1) * (y - e.1.2) / (e.2.2 - e.1.2) + e.1.1
  then !inside
  else inside

/-- Modelled from the spec: the `point-in-polygon` npm dependency called by
both handlers is not part of src/; §4.2 of the spec describes it as the
standard ray-casting containment test over `(lon, lat)` pairs treated as
planar Cartesian coordinates.  `p` is the `[point.lon, point.lat]` pair and
`vs` the polygon's vertex list. -/
def pointInPolygon (p : ℚ × ℚ) (vs : List (ℚ × ℚ)) : Bool :=
  (polygonEdges vs).foldl (raycastStep p.1 p.2) false

/-- `vegetationPolygons.some(polygon => pointInPolygon([point.lon, point.lat], polygon))` -/
def hasVeg (polygons : List (List (ℚ × ℚ))) (point : Coord) : Bool :=
  polygons.any (fun polygon => pointInPolygon (point.lon, point.lat) polygon)

/-- A GLOBE citizen-science observation as mapped by `fetchGlobeData`:
`coordinates` is GeoJSON `[lon, lat]`, split here into named fields
(`lat = coordinates[1]`, `lon = coordinates[0]`); the remaining payload
fields are irrelevant to the pipeline and summarised by `id` and
`elevation`. -/
structure GlobeObservation where
  id : ℕ
  elevation : ℚ
  lat : ℚ
  lon : ℚ
deriving DecidableEq, Repr

/-- The observation-fusion step of the extended variant:

```
const globePoint = globeData.find(
  (g) => Math.abs(g.coordinates[1] - point.lat) < 0.001 &&
         Math.abs(g.coordinates[0] - point.lon) < 0.001);
```
-/
def attachNearest (point : Coord) (globeData : List GlobeObservation) :
    Option GlobeObservation :=
  globeData.find? (fun g =>
    decide (|g.lat - point.lat| < 1/1000) && decide (|g.lon - point.lon| < 1/1000))

/-- `const temperature = temperatures[index] || 25;` — an absent entry
(`undefined`) or a falsy entry (the number `0`) is replaced by `25`. -/
def effectiveTemp (temperatures : List ℚ) (index : ℕ) : ℚ :=
  match temperatures[index]? with
  | some t => if t = 0 then 25 else t
  | none => 25

/-- `parseFloat(beeScore.toFixed(3))` — rounding to three decimals.  Every
score the extended pipeline can keep is already an exact multiple of
`1/1000`, where this is the identity. -/
def toFixed3 (q : ℚ) : ℚ :=
  (round (q * 1000) : ℚ) / 1000

/-- A point of the extended variant's response. -/
structure HeatmapPoint where
  latitude : ℚ
  longitude : ℚ
  weight : ℚ
  temperature : ℚ
  globe : Option GlobeObservation
deriving DecidableEq, Repr

/-- The body of the extended variant's `gridPoints.map((point, index) => ...)`:
returns `none` for the two `return null` branches (no vegetation, or
`beeScore < 0.05`) and the response object otherwise. -/
def processPoint (polygons : List (List (ℚ × ℚ))) (currentMonth : ℕ)
    (globeData : List GlobeObservation) (temperatures : List ℚ)
    (index : ℕ) (point : Coord) : Option HeatmapPoint :=
  let hasVegetation := hasVeg polygons point
  if !hasVegetation then none
  else
    let temperature := effectiveTemp temperatures index
    let beeScore := calcularPontuacaoAbelha (some temperature) true point.lat currentMonth
    if beeScore < 1/20 then none
    else
      some { latitude := point.lat
             longitude := point.lon
             weight := toFixed3 beeScore
             temperature := temperature
             globe := attachNearest point globeData }

/-- Step 5 of the extended variant:
`gridPoints.map((point, index) => { ... }).filter(Boolean)` —
map each indexed grid point through `processPoint` and drop the nulls. -/
def beeMapExtended (polygons : List (List (ℚ × ℚ))) (currentMonth : ℕ)
    (globeData : List GlobeObservation) (temperatures : List ℚ)
    (gridPoints : List Coord) : List HeatmapPoint :=
  (gridPoints.enum.map (fun ip =>
    processPoint polygons currentMonth globeData temperatures ip.1 ip.2)).reduceOption

/-- A point of the basic variant's response
(`{ latitude, longitude, weight }`). -/
structure BasicPoint where
  latitude : ℚ
  longitude : ℚ
  weight : ℚ
deriving DecidableEq, Repr

/-- The basic variant's `heatmapData = gridPoints.map((point, index) => ...)`:
every grid point is returned; `temperatures[index]` may be `undefined`
(modelled by `temperatures[index]?`) when the single batched weather
response is shorter than the grid, in which case the score is `0`. -/
def beeMapBasic (polygons : List (List (ℚ × ℚ))) (currentMonth : ℕ)
    (temperatures : List ℚ) (gridPoints : List Coord) : List BasicPoint :=
  gridPoints.enum.map (fun ip =>
    { latitude := ip.2.lat
      longitude := ip.2.lon
      weight := calcularPontuacaoAbelha temperatures[ip.1]? (hasVeg polygons ip.2)
                  ip.2.lat currentMonth })

/-- The seasonality table exactly as the claim words it (claim-side
definition, for comparison with `seasonalityScore`). -/
def seasonalityTableSpec (m : ℕ) (lat : ℚ) : ℚ :=
  if lat > 0 then
    if 2 ≤ m ∧ m ≤ 7 then 1
    else if m = 8 ∨ m = 9 then 1/2
    else 1/10
  else
    if 8 ≤ m ∨ m ≤ 1 then 1
    else if m = 2 ∨ m = 3 then 1/2
    else 1/10

/-- The keep-condition of the extended variant's filter, as the claim words
it: the indexed grid point lies inside at least one vegetation polygon and
its computed score is at least the threshold `0.05`. -/
def keepPoint (polygons : List (List (ℚ × ℚ))) (currentMonth : ℕ)
    (temperatures : List ℚ) (ip : ℕ × Coord) : Bool :=
  hasVeg polygons ip.2 &&
    decide (1/20 ≤ calcularPontuacaoAbelha (some (effectiveTemp temperatures ip.1))
      true ip.2.lat currentMonth)

/-- The response object the extended variant builds for a kept indexed grid
point. -/
def mkHeatmapPoint (currentMonth : ℕ) (globeData : List GlobeObservation)
    (temperatures : List ℚ) (ip : ℕ × Coord) : HeatmapPoint :=
  { latitude := ip.2.lat
    longitude := ip.2.lon
    weight := toFixed3 (calcularPontuacaoAbelha (some (effectiveTemp temperatures ip.1))
      true ip.2.lat currentMonth)
    temperature := effectiveTemp temperatures ip.1
    globe := attachNearest ip.2 globeData }

/-! ## Helper lemmas -/

/-- `vegetationScore` is one of `1` and `1/20`, and in particular never `0`. -/
theorem vegetationScore_cases (v : Bool) :
    vegetationScore v = 1 ∨ vegetationScore v = 1/20 := by
  cases v <;> simp [vegetationScore]

theorem vegetationScore_bounds (v : Bool) :
    0 ≤ vegetationScore v ∧ vegetationScore v ≤ 1 := by
  cases v <;> norm_num [vegetationScore]

theorem tempScore_bounds (t : ℚ) : 0 ≤ tempScore t ∧ tempScore t ≤ 1 := by
  unfold tempScore
  split_ifs <;> norm_num

/-- Every branch of the seasonality table yields `1`, `1/2` or `1/10`. -/
theorem seasonalityScore_cases (m : ℕ) (lat : ℚ) :
    seasonalityScore m lat = 1 ∨ seasonalityScore m lat = 1/2 ∨
      seasonalityScore m lat = 1/10 := by
  unfold seasonalityScore
  split_ifs <;> simp

theorem seasonalityScore_bounds (m : ℕ) (lat : ℚ) :
    1/10 ≤ seasonalityScore m lat ∧ seasonalityScore m lat ≤ 1 := by
  rcases seasonalityScore_cases m lat with h | h | h <;> rw [h] <;> norm_num

/-- At temperature 25 °C with vegetation the score reduces to the
seasonality factor alone. -/
theorem score_at_25 (lat : ℚ) (m : ℕ) :
    calcularPontuacaoAbelha (some 25) true lat m = seasonalityScore m lat := by
  unfold calcularPontuacaoAbelha vegetationScore tempScore
  norm_num

/-! ## Claim theorems -/

/-- C1: for every temperature, vegetation flag, latitude (and month, the
input the source reads from the clock), the score is the product
vegetationFactor × temperatureFactor × seasonalityFactor with
vegetationFactor ∈ {1, 0.05} (never zero) and the stated temperature
table; a null/absent temperature gives overall score 0; and the resulting
weight always lies in [0, 1]. -/
theorem c1_score_is_bounded_factor_product (t : ℚ) (temp : Option ℚ) (v : Bool)
    (lat : ℚ) (m : ℕ) :
    calcularPontuacaoAbelha none v lat m = 0 ∧
    calcularPontuacaoAbelha (some t) v lat m =
      (if v then (1 : ℚ) else 1/20) *
        (if 20 ≤ t ∧ t ≤ 32 then (1 : ℚ)
         else if 15 < t ∧ t < 38 then 1/2 else 0) *
        seasonalityScore m lat ∧
    vegetationScore v ≠ 0 ∧
    0 ≤ calcularPontuacaoAbelha temp v lat m ∧
    calcularPontuacaoAbelha temp v lat m ≤ 1 := by
  obtain ⟨hv0, hv1⟩ := vegetationScore_bounds v
  refine ⟨rfl, rfl, ?_, ?_, ?_⟩
  · rcases vegetationScore_cases v with h | h <;> rw [h] <;> norm_num
  · cases temp with
    | none => simp [calcularPontuacaoAbelha]
    | some t' =>
      obtain ⟨ht0, _⟩ := tempScore_bounds t'
      obtain ⟨hs0, _⟩ := seasonalityScore_bounds m lat
      exact mul_nonneg (mul_nonneg hv0 ht0) (le_trans (by norm_num) hs0)
  · cases temp with
    | none => simp [calcularPontuacaoAbelha]
    | some t' =>
      obtain ⟨ht0, ht1⟩ := tempScore_bounds t'
      obtain ⟨hs0, hs1⟩ := seasonalityScore_bounds m lat
      exact mul_le_one₀ (mul_le_one₀ hv1 ht0 ht1)
        (le_trans (by norm_num) hs0) hs1

/-- C2: the seasonality factor is exactly the claimed month/hemisphere
table (Northern for latitude > 0: months 2–7 → 1.0, months 8–9 → 0.5,
else 0.1; Southern otherwise: months ≥ 8 or ≤ 1 → 1.0, months 2–3 → 0.5,
else 0.1); in particular at month 9 latitude +10 yields factor 0.5 and
latitude −10 yields 1.0, with the same temperature and vegetation. -/
theorem c2_seasonality_hemisphere_table (m : ℕ) (lat t : ℚ) (v : Bool) :
    seasonalityScore m lat = seasonalityTableSpec m lat ∧
    seasonalityScore 9 10 = 1/2 ∧
    seasonalityScore 9 (-10) = 1 ∧
    calcularPontuacaoAbelha (some t) v 10 9 =
      vegetationScore v * tempScore t * (1/2) ∧
    calcularPontuacaoAbelha (some t) v (-10) 9 =
      vegetationScore v * tempScore t * 1 := by
  have h10 : seasonalityScore 9 10 = 1/2 := by norm_num [seasonalityScore]
  have hm10 : seasonalityScore 9 (-10) = 1 := by norm_num [seasonalityScore]
  refine ⟨rfl, h10, hm10, ?_, ?_⟩
  · unfold calcularPontuacaoAbelha
    rw [h10]
  · unfold calcularPontuacaoAbelha
    rw [hm10]

/-- C6 counterexample: the claim is false of the source — the scorer reads
the current month from the system clock (`new Date().getMonth()`), so two
invocations with identical temperature, vegetation and latitude but
different wall-clock months return different weights (month 5 → 1.0,
month 0 → 0.1, at 25 °C, vegetated, latitude 10). -/
theorem c6_counterexample :
    calcularPontuacaoAbelha (some 25) true 10 5 ≠
      calcularPontuacaoAbelha (some 25) true 10 0 := by
  norm_num [calcularPontuacaoAbelha, vegetationScore, tempScore, seasonalityScore]

/-- C6 (amended): the score is a deterministic function of its three inputs
*together with the current calendar month*, which the source reads
internally from the system clock; nothing else influences the result. -/
theorem c6_deterministic_given_month (t₁ t₂ : Option ℚ) (v₁ v₂ : Bool)
    (l₁ l₂ : ℚ) (m₁ m₂ : ℕ)
    (ht : t₁ = t₂) (hv : v₁ = v₂) (hl : l₁ = l₂) (hm : m₁ = m₂) :
    calcularPontuacaoAbelha t₁ v₁ l₁ m₁ = calcularPontuacaoAbelha t₂ v₂ l₂ m₂ := by
  rw [ht, hv, hl, hm]

/-- Witness for `c6_deterministic_given_month` at a concrete input. -/
theorem c6_deterministic_given_month_witness :
    calcularPontuacaoAbelha (some 25) true 10 5 =
      calcularPontuacaoAbelha (some 25) true 10 5 :=
  c6_deterministic_given_month (some 25) (some 25) true true 10 10 5 5
    rfl rfl rfl rfl

/-- Indexing a `flatMap` over a contiguous range of rows of constant
length `N`: entry `i * N + j` comes from row `a + i`. -/
theorem flatMap_range'_getElem {α : Type} (g : ℕ → List α) (N : ℕ)
    (hg : ∀ k, (g k).length = N) :
    ∀ (n a i j : ℕ), i < n → j < N →
      ((List.range' a n).flatMap g)[i * N + j]? = (g (a + i))[j]? := by
  intro n
  induction n with
  | zero => intro a i j hi _; exact absurd hi (Nat.not_lt_zero i)
  | succ n ih =>
    intro a i j hi hj
    rw [List.range'_succ, List.flatMap_cons]
    cases i with
    | zero =>
      rw [List.getElem?_append, if_pos (by rw [hg]; omega)]
      simp
    | succ i' =>
      have hsm : (i' + 1) * N = i' * N + N := Nat.succ_mul i' N
      have hN : (g a).length ≤ (i' + 1) * N + j := by rw [hg]; omega
      rw [List.getElem?_append_right hN]
      have hidx : (i' + 1) * N + j - (g a).length = i' * N + j := by
        rw [hg]; omega
      rw [hidx, ih (a + 1) i' j (Nat.lt_of_succ_lt_succ hi) hj,
        show a + 1 + i' = a + (i' + 1) from by omega]

/-- The same indexing fact for `List.range`. -/
theorem flatMap_range_getElem {α : Type} (g : ℕ → List α) (N : ℕ)
    (hg : ∀ k, (g k).length = N) (i j : ℕ) (hi : i < N) (hj : j < N) :
    ((List.range N).flatMap g)[i * N + j]? = (g i)[j]? := by
  rw [List.range_eq_range']
  simpa using flatMap_range'_getElem g N hg N 0 i j hi hj

/-- The grid entry at row-major position `i * N + j`. -/
theorem generateGrid_getElem (lat lon buffer : ℚ) (N i j : ℕ)
    (hi : i < N) (hj : j < N) :
    (generateGrid lat lon buffer N)[i * N + j]? =
      some (gridPointAt lat lon buffer N i j) := by
  unfold generateGrid
  rw [flatMap_range_getElem
      (fun i => (List.range N).map (fun j => gridPointAt lat lon buffer N i j)) N
      (fun k => by simp) i j hi hj,
    List.getElem?_map, List.getElem?_range hj]
  rfl

/-- The grid always has exactly `N * N` points. -/
theorem generateGrid_length (lat lon buffer : ℚ) (N : ℕ) :
    (generateGrid lat lon buffer N).length = N * N := by
  unfold generateGrid
  rw [List.length_flatMap]
  rw [show List.map
        (List.length ∘ fun i => (List.range N).map (fun j => gridPointAt lat lon buffer N i j))
        (List.range N) = List.map (Function.const ℕ N) (List.range N) from
      List.map_congr_left (fun a _ => by simp [Function.const])]
  rw [List.map_const, List.length_range, List.sum_replicate, smul_eq_mul]

/-- C3: for every center, buffer and resolution `N ≥ 2`, the grid has
exactly `N * N` points in row-major order (`i` outer, `j` inner) with
`lat = south + i*(north−south)/(N−1)` and `lon = west + j*(east−west)/(N−1)`;
generation is deterministic and idempotent, and the first and last points
equal exactly `(south, west)` and `(north, east)`. -/
theorem c3_generateGrid_rowMajor (lat lon buffer : ℚ) (N : ℕ) (hN : 2 ≤ N) :
    (generateGrid lat lon buffer N).length = N * N ∧
    generateGrid lat lon buffer N = generateGrid lat lon buffer N ∧
    (∀ i j, i < N → j < N →
      (generateGrid lat lon buffer N)[i * N + j]? =
        some { lat := (lat - buffer) +
                   ((i : ℚ) * ((lat + buffer) - (lat - buffer))) / ((N : ℚ) - 1)
               lon := (lon - buffer) +
                   ((j : ℚ) * ((lon + buffer) - (lon - buffer))) / ((N : ℚ) - 1) }) ∧
    (generateGrid lat lon buffer N)[0]? =
      some { lat := lat - buffer, lon := lon - buffer } ∧
    (generateGrid lat lon buffer N)[N * N - 1]? =
      some { lat := lat + buffer, lon := lon + buffer } := by
  have hNpos : 0 < N := by omega
  have hNne : ((N : ℚ) - 1) ≠ 0 := by
    have h2 : (2 : ℚ) ≤ (N : ℚ) := by exact_mod_cast hN
    intro h
    have : (N : ℚ) = 1 := by linarith
    linarith
  refine ⟨generateGrid_length lat lon buffer N, rfl,
    fun i j hi hj => generateGrid_getElem lat lon buffer N i j hi hj, ?_, ?_⟩
  · have h := generateGrid_getElem lat lon buffer N 0 0 hNpos hNpos
    rw [Nat.zero_mul, Nat.zero_add] at h
    rw [h]
    simp [gridPointAt]
  · obtain ⟨M, rfl⟩ : ∃ M, N = M + 1 := ⟨N - 1, by omega⟩
    have hidx : (M + 1) * (M + 1) - 1 = M * (M + 1) + M := by
      have : (M + 1) * (M + 1) = M * (M + 1) + M + 1 := by ring
      omega
    have h := generateGrid_getElem lat lon buffer (M + 1) M M
      (Nat.lt_succ_self M) (Nat.lt_succ_self M)
    rw [hidx, h]
    have hM : (((M + 1 : ℕ) : ℚ) - 1) ≠ 0 := hNne
    have hM' : (M : ℚ) ≠ 0 := by
      intro h0
      apply hM
      push_cast
      rw [h0]
      ring
    unfold gridPointAt
    have hc : (((M + 1 : ℕ) : ℚ) - 1) = (M : ℚ) := by push_cast; ring
    rw [hc]
    have hlat : (lat - buffer) +
        ((M : ℚ) * ((lat + buffer) - (lat - buffer))) / (M : ℚ) = lat + buffer := by
      rw [mul_div_cancel_left₀ _ hM']
      ring
    have hlon : (lon - buffer) +
        ((M : ℚ) * ((lon + buffer) - (lon - buffer))) / (M : ℚ) = lon + buffer := by
      rw [mul_div_cancel_left₀ _ hM']
      ring
    rw [hlat, hlon]

/-- Witness for `c3_generateGrid_rowMajor` at center (0,0), buffer 1/2,
resolution 3. -/
theorem c3_generateGrid_rowMajor_witness :
    (generateGrid 0 0 (1/2) 3).length = 3 * 3 ∧
    (generateGrid 0 0 (1/2) 3)[0]? =
      some { lat := 0 - 1/2, lon := 0 - 1/2 } ∧
    (generateGrid 0 0 (1/2) 3)[3 * 3 - 1]? =
      some { lat := 0 + 1/2, lon := 0 + 1/2 } ∧
    (generateGrid 0 0 (1/2) 3)[1 * 3 + 2]? =
      some { lat := (0 - 1/2) + ((1 : ℚ) * ((0 + 1/2) - (0 - 1/2))) / ((3 : ℚ) - 1)
             lon := (0 - 1/2) + ((2 : ℚ) * ((0 + 1/2) - (0 - 1/2))) / ((3 : ℚ) - 1) } := by
  have h := c3_generateGrid_rowMajor 0 0 (1/2) 3 (by norm_num)
  refine ⟨h.1, h.2.2.2.1, h.2.2.2.2, ?_⟩
  have := h.2.2.1 1 2 (by norm_num) (by norm_num)
  simpa using this

/-- C8 counterexample: at resolution 1 (< 2) the grid loop of the source
does not fail with any `InvalidResolution` error — it returns a one-point
grid (in JavaScript the single point's coordinates are `NaN` via `0/0`,
but no error is raised and no validation exists anywhere in the source). -/
theorem c8_counterexample :
    (generateGrid 0 0 (1/2) 1).length = 1 ∧ generateGrid 0 0 (1/2) 1 ≠ [] := by
  exact ⟨rfl, by decide⟩

/-- C8 (amended): the source hardcodes the resolution to the constant 15,
which satisfies N ≥ 2, and performs no resolution validation at all: there
is no `InvalidResolution` failure, and the grid loop is total, producing
`N * N` points for every resolution `N`, including `N < 2`. -/
theorem c8_no_resolution_validation (lat lon buffer : ℚ) (N : ℕ) :
    sourceGridSize = 15 ∧ 2 ≤ sourceGridSize ∧
    (generateGrid lat lon buffer N).length = N * N := by
  exact ⟨rfl, by norm_num [sourceGridSize], generateGrid_length lat lon buffer N⟩

/-- C4: in sequential rate-limited mode the temperature list has exactly the
input length and is aligned 1:1 with input order; a point whose individual
fetch fails (the oracle returns `none` — timeout, HTTP 429 or any other
error) contributes the fallback 25 °C at its own index, every other index
carries the fetched value, and no single failure aborts the grid (the
result is always total and full-length). -/
theorem c4_fetchTemperatures_alignment (fetch : Coord → Option ℚ)
    (points : List Coord) :
    (fetchTemperatures fetch points).length = points.length ∧
    ∀ i (hi : i < points.length),
      (fetch points[i] = none → (fetchTemperatures fetch points)[i]? = some 25) ∧
      ∀ t, fetch points[i] = some t →
        (fetchTemperatures fetch points)[i]? = some t := by
  constructor
  · simp [fetchTemperatures]
  · intro i hi
    have hbase : (fetchTemperatures fetch points)[i]? =
        some (match fetch points[i] with
              | some t => t
              | none => 25) := by
      unfold fetchTemperatures
      rw [List.getElem?_map, List.getElem?_eq_getElem hi]
      rfl
    constructor
    · intro hnone
      rw [hbase, hnone]
    · intro t ht
      rw [hbase, ht]

/-- Witness for `c4_fetchTemperatures_alignment`: two points, the second
one's fetch fails, the result is `[20, 25]`. -/
theorem c4_fetchTemperatures_alignment_witness :
    (fetchTemperatures (fun p => if p.lat = 0 then none else some 20)
      [{ lat := 1, lon := 0 }, { lat := 0, lon := 0 }]).length = 2 ∧
    (fetchTemperatures (fun p => if p.lat = 0 then none else some 20)
      [{ lat := 1, lon := 0 }, { lat := 0, lon := 0 }])[0]? = some 20 ∧
    (fetchTemperatures (fun p => if p.lat = 0 then none else some 20)
      [{ lat := 1, lon := 0 }, { lat := 0, lon := 0 }])[1]? = some 25 := by
  have h := c4_fetchTemperatures_alignment
    (fun p => if p.lat = 0 then none else some 20)
    [{ lat := 1, lon := 0 }, { lat := 0, lon := 0 }]
  exact ⟨h.1, (h.2 0 (by norm_num)).2 20 (by norm_num),
    (h.2 1 (by norm_num)).1 (by norm_num)⟩

/-- C7 counterexample: with two grid points and a weather response carrying
a single aligned entry (misaligned: response length 1 ≠ grid length 2), the
basic batched handler does not fail the batch — it returns a full
two-point heatmap and the unmatched index silently scores weight 0. -/
theorem c7_counterexample :
    (beeMapBasic [] 5 [25] [{ lat := 0, lon := 0 }, { lat := 1, lon := 1 }]).length = 2 ∧
    ((beeMapBasic [] 5 [25]
        [{ lat := 0, lon := 0 }, { lat := 1, lon := 1 }])[1]?).map BasicPoint.weight =
      some 0 := by
  constructor
  · simp [beeMapBasic, List.enum_length]
  · unfold beeMapBasic
    rw [List.getElem?_map, List.getElem?_enum,
      List.getElem?_eq_getElem (by norm_num : 1 < List.length
        [({ lat := 0, lon := 0 } : Coord), { lat := 1, lon := 1 }])]
    rfl

/-- C7 (amended): the basic batched handler issues one request for the
whole grid but performs no alignment check on the response: when the
response is shorter than the grid it does not fail — every grid point is
still returned, and each index beyond the response length gets an
`undefined` temperature, which scores weight 0 (silently defaulted).  The
whole request fails only if the single HTTP request itself throws. -/
theorem c7_misalignment_not_batch_failure (polygons : List (List (ℚ × ℚ)))
    (currentMonth : ℕ) (temperatures : List ℚ) (gridPoints : List Coord)
    (i : ℕ) (hlen : temperatures.length ≤ i) (hi : i < gridPoints.length) :
    (beeMapBasic polygons currentMonth temperatures gridPoints).length =
      gridPoints.length ∧
    ∃ e, (beeMapBasic polygons currentMonth temperatures gridPoints)[i]? = some e ∧
      e.weight = 0 := by
  have hnone : temperatures[i]? = none := List.getElem?_eq_none hlen
  constructor
  · simp [beeMapBasic, List.enum_length]
  · unfold beeMapBasic
    rw [List.getElem?_map, List.getElem?_enum, List.getElem?_eq_getElem hi]
    refine ⟨_, rfl, ?_⟩
    show calcularPontuacaoAbelha temperatures[i]? _ _ _ = 0
    rw [hnone]
    rfl

/-- Witness for `c7_misalignment_not_batch_failure`: one response entry,
two grid points, index 1 beyond the response. -/
theorem c7_misalignment_not_batch_failure_witness :
    (beeMapBasic [] 5 [25] [{ lat := 0, lon := 0 }, { lat := 2, lon := 2 }]).length = 2 ∧
    ∃ e, (beeMapBasic [] 5 [25]
        [{ lat := 0, lon := 0 }, { lat := 2, lon := 2 }])[1]? = some e ∧
      e.weight = 0 :=
  c7_misalignment_not_batch_failure [] 5 [25]
    [{ lat := 0, lon := 0 }, { lat := 2, lon := 2 }] 1 (by norm_num) (by norm_num)

/-- C9: an observation is attached iff `|obs.lat − point.lat| < 0.001` and
`|obs.lon − point.lon| < 0.001`; at most one observation is attached (the
result is a single `Option`); when several qualify, the first in the
observation list wins; and absence of any qualifying observation is the
normal `none` outcome, not an error. -/
theorem c9_attachNearest_spec (point : Coord) (globeData l₁ l₂ : List GlobeObservation)
    (o : GlobeObservation) :
    (attachNearest point globeData = some o →
      (|o.lat - point.lat| < 1/1000 ∧ |o.lon - point.lon| < 1/1000) ∧
        o ∈ globeData) ∧
    (attachNearest point globeData = none ↔
      ∀ g ∈ globeData,
        ¬(|g.lat - point.lat| < 1/1000 ∧ |g.lon - point.lon| < 1/1000)) ∧
    ((|o.lat - point.lat| < 1/1000 ∧ |o.lon - point.lon| < 1/1000) →
      (∀ g ∈ l₁, ¬(|g.lat - point.lat| < 1/1000 ∧ |g.lon - point.lon| < 1/1000)) →
      attachNearest point (l₁ ++ o :: l₂) = some o) := by
  refine ⟨?_, ?_, ?_⟩
  · intro h
    have hp := List.find?_some h
    have hm := List.mem_of_find?_eq_some h
    simp only [Bool.and_eq_true, decide_eq_true_eq] at hp
    exact ⟨hp, hm⟩
  · unfold attachNearest
    rw [List.find?_eq_none]
    constructor
    · intro h g hg hcond
      have hgf := h g hg
      simp only [Bool.and_eq_true, decide_eq_true_eq] at hgf
      exact hgf hcond
    · intro h g hg
      simp only [Bool.and_eq_true, decide_eq_true_eq]
      exact h g hg
  · intro ho hl
    unfold attachNearest
    rw [List.find?_append]
    have h1 : List.find? (fun g =>
        decide (|g.lat - point.lat| < 1/1000) &&
          decide (|g.lon - point.lon| < 1/1000)) l₁ = none := by
      rw [List.find?_eq_none]
      intro g hg
      simp only [Bool.and_eq_true, decide_eq_true_eq]
      exact hl g hg
    rw [h1]
    rw [List.find?_cons_of_pos _ (by
      simp only [Bool.and_eq_true, decide_eq_true_eq]
      exact ho)]
    rfl

/-- Witness for `c9_attachNearest_spec`: two qualifying observations (ids 2
and 3); the first in list order (id 2) is attached. -/
theorem c9_attachNearest_spec_witness :
    attachNearest { lat := 0, lon := 0 }
      ([{ id := 1, elevation := 0, lat := 5, lon := 5 }] ++
        { id := 2, elevation := 0, lat := 1/2000, lon := 1/2000 } ::
          [{ id := 3, elevation := 0, lat := 1/5000, lon := 0 }]) =
      some { id := 2, elevation := 0, lat := 1/2000, lon := 1/2000 } :=
  (c9_attachNearest_spec { lat := 0, lon := 0 } []
    [{ id := 1, elevation := 0, lat := 5, lon := 5 }]
    [{ id := 3, elevation := 0, lat := 1/5000, lon := 0 }]
    { id := 2, elevation := 0, lat := 1/2000, lon := 1/2000 }).2.2
    (by norm_num [abs_lt])
    (by
      intro g hg
      simp only [List.mem_singleton] at hg
      subst hg
      norm_num [abs_lt])

/-- C10: in the extended variant a fetched temperature of exactly 0 °C (a
falsy value in JavaScript) is replaced by the fallback 25 °C before
scoring: the effective temperature is 25, and a vegetated point with a
0 °C entry is returned with temperature field 25 and weight computed from
25, never from 0. -/
theorem c10_zero_temperature_uses_fallback (polygons : List (List (ℚ × ℚ)))
    (currentMonth : ℕ) (globeData : List GlobeObservation) (temperatures : List ℚ)
    (i : ℕ) (p : Coord) (h0 : temperatures[i]? = some 0) :
    effectiveTemp temperatures i = 25 ∧
    (hasVeg polygons p = true →
      processPoint polygons currentMonth globeData temperatures i p =
        some { latitude := p.lat
               longitude := p.lon
               weight := toFixed3
                 (calcularPontuacaoAbelha (some 25) true p.lat currentMonth)
               temperature := 25
               globe := attachNearest p globeData }) := by
  have heff : effectiveTemp temperatures i = 25 := by
    unfold effectiveTemp
    rw [h0]
    simp
  refine ⟨heff, fun hv => ?_⟩
  have hscore : ¬(calcularPontuacaoAbelha (some 25) true p.lat currentMonth < 1/20) := by
    rw [score_at_25]
    have h10 := (seasonalityScore_bounds currentMonth p.lat).1
    linarith
  simp only [processPoint, hv, heff, Bool.not_true]
  rw [if_neg (by simp), if_neg hscore]

/-- Witness for `c10_zero_temperature_uses_fallback`: a vegetated point in
the unit square polygon with fetched temperature 0 gets temperature 25. -/
theorem c10_zero_temperature_uses_fallback_witness :
    effectiveTemp [0] 0 = 25 ∧
    processPoint [[(0, 0), (1, 0), (1, 1), (0, 1)]] 5 [] [0] 0
        { lat := 1/2, lon := 1/2 } =
      some { latitude := 1/2
             longitude := 1/2
             weight := toFixed3 (calcularPontuacaoAbelha (some 25) true (1/2) 5)
             temperature := 25
             globe := none } := by
  have h := c10_zero_temperature_uses_fallback [[(0, 0), (1, 0), (1, 1), (0, 1)]]
    5 [] [0] 0 { lat := 1/2, lon := 1/2 } rfl
  have hveg : hasVeg [[(0, 0), (1, 0), (1, 1), (0, 1)]] { lat := 1/2, lon := 1/2 } = true := by
    have hE : polygonEdges [(0, 0), (1, 0), (1, 1), (0, 1)] =
        [((0, 0), (0, 1)), ((1, 0), (0, 0)), ((1, 1), (1, 0)), ((0, 1), (1, 1))] := rfl
    simp only [hasVeg, List.any_cons, List.any_nil, pointInPolygon, hE,
      List.foldl_cons, List.foldl_nil, raycastStep]
    norm_num
  exact ⟨h.1, h.2 hveg⟩

/-- `map f` followed by dropping the `none`s equals filtering by the keep
condition and mapping the build function, whenever `f` is pointwise of that
shape. -/
theorem reduceOption_map_eq_filter_map {α β : Type} (f : α → Option β)
    (p : α → Bool) (g : α → β)
    (hf : ∀ a, f a = if p a = true then some (g a) else none) :
    ∀ l : List α, (l.map f).reduceOption = (l.filter p).map g := by
  intro l
  induction l with
  | nil => rfl
  | cons a l ih =>
    rw [List.map_cons, List.filter_cons]
    by_cases hp : p a = true
    · rw [hf a, if_pos hp, if_pos hp, List.reduceOption_cons_of_some,
        List.map_cons, ih]
    · rw [hf a, if_neg hp, if_neg hp, List.reduceOption_cons_of_none, ih]

/-- A guard written `if a < b then none else some x` is the keep-form
`if b ≤ a then some x else none`. -/
theorem ite_lt_none_eq_ite_le {α : Type} (a b : ℚ) (x : α) :
    (if a < b then none else some x) = if b ≤ a then some x else none := by
  rcases lt_or_le a b with h | h
  · rw [if_pos h, if_neg (not_le.mpr h)]
  · rw [if_neg (not_lt.mpr h), if_pos h]

/-- The body of the extended variant's map is exactly keep-and-build: it
returns `some` precisely when the point is vegetated and its score reaches
the 0.05 threshold. -/
theorem processPoint_eq_keep (polygons : List (List (ℚ × ℚ))) (currentMonth : ℕ)
    (globeData : List GlobeObservation) (temperatures : List ℚ) (ip : ℕ × Coord) :
    processPoint polygons currentMonth globeData temperatures ip.1 ip.2 =
      if keepPoint polygons currentMonth temperatures ip = true
      then some (mkHeatmapPoint currentMonth globeData temperatures ip)
      else none := by
  unfold processPoint keepPoint mkHeatmapPoint
  cases hv : hasVeg polygons ip.2 with
  | false => simp [hv]
  | true =>
    simp [hv]
    exact ite_lt_none_eq_ite_le _ _ _

/-- C5: the extended variant returns exactly the grid points that lie in at
least one vegetation polygon and whose score reaches the threshold 0.05, in
grid order (a filter of the enumerated grid followed by the response-object
map); the basic variant returns all grid points unconditionally, one
response entry per grid point, positionally aligned. -/
theorem c5_filtering_policy (polygons : List (List (ℚ × ℚ))) (currentMonth : ℕ)
    (globeData : List GlobeObservation) (temperatures : List ℚ)
    (gridPoints : List Coord) :
    beeMapExtended polygons currentMonth globeData temperatures gridPoints =
      (gridPoints.enum.filter (keepPoint polygons currentMonth temperatures)).map
        (mkHeatmapPoint currentMonth globeData temperatures) ∧
    (beeMapBasic polygons currentMonth temperatures gridPoints).length =
      gridPoints.length ∧
    ∀ i (hi : i < gridPoints.length),
      (beeMapBasic polygons currentMonth temperatures gridPoints)[i]? =
        some { latitude := (gridPoints.get ⟨i, hi⟩).lat
               longitude := (gridPoints.get ⟨i, hi⟩).lon
               weight := calcularPontuacaoAbelha temperatures[i]?
                   (hasVeg polygons (gridPoints.get ⟨i, hi⟩))
                   (gridPoints.get ⟨i, hi⟩).lat currentMonth } := by
  refine ⟨?_, ?_, ?_⟩
  · unfold beeMapExtended
    exact reduceOption_map_eq_filter_map _ _ _
      (fun ip => processPoint_eq_keep polygons currentMonth globeData temperatures ip)
      gridPoints.enum
  · simp [beeMapBasic, List.enum_length]
  · intro i hi
    unfold beeMapBasic
    rw [List.getElem?_map, List.getElem?_enum, List.getElem?_eq_getElem hi]
    rfl

/-- Witness for `c5_filtering_policy`: a square vegetation polygon, one
point inside it and one outside, temperatures `[25, 10]`. -/
theorem c5_filtering_policy_witness :
    beeMapExtended [[(0, 0), (1, 0), (1, 1), (0, 1)]] 5 [] [25, 10]
        [{ lat := 1/2, lon := 1/2 }, { lat := 2, lon := 2 }] =
      (([{ lat := 1/2, lon := 1/2 }, { lat := 2, lon := 2 }] : List Coord).enum.filter
        (keepPoint [[(0, 0), (1, 0), (1, 1), (0, 1)]] 5 [25, 10])).map
        (mkHeatmapPoint 5 [] [25, 10]) ∧
    (beeMapBasic [[(0, 0), (1, 0), (1, 1), (0, 1)]] 5 [25, 10]
        [{ lat := 1/2, lon := 1/2 }, { lat := 2, lon := 2 }]).length = 2 ∧
    (beeMapBasic [[(0, 0), (1, 0), (1, 1), (0, 1)]] 5 [25, 10]
        [{ lat := 1/2, lon := 1/2 }, { lat := 2, lon := 2 }])[0]? =
      some { latitude := 1/2
             longitude := 1/2
             weight := calcularPontuacaoAbelha (some 25)
                 (hasVeg [[(0, 0), (1, 0), (1, 1), (0, 1)]] { lat := 1/2, lon := 1/2 })
                 (1/2) 5 } := by
  have h := c5_filtering_policy [[(0, 0), (1, 0), (1, 1), (0, 1)]] 5 [] [25, 10]
    [{ lat := 1/2, lon := 1/2 }, { lat := 2, lon := 2 }]
  exact ⟨h.1, h.2.1, h.2.2 0 (by norm_num)⟩
